import Mathlib

/-!
Shallow embedding of the multi-signal scoring and fusion pipeline of the
InterviewX analysis services (audio, facial, text), together with proofs
of the stated properties of the weighted aggregator, the level classifier
and the threshold gate.

Scores and weights are modelled as rationals; Python dicts carrying named
scores are modelled as association lists with string keys (dict iteration
order only affects the order of commutative additions here).
-/

namespace InterviewX

/-- A Python dict mapping score names to floats, as an association list. -/
abbrev Mapping := List (String × ℚ)

/-- Dict membership / lookup: `m[k]` for the first entry named `k`. -/
def lookup : Mapping → String → Option ℚ
  | [], _ => none
  | p :: t, k => if p.1 = k then some p.2 else lookup t k

/-- One iteration of the aggregation loop of
`AudioProcessor._calculate_quality_score` (audio_processor.py lines 361-365)
and `calculate_overall_quality` (text_analysis_service.py lines 550-554):
`if metric in metrics: quality_score += weight * metrics[metric];
total_weight += weight`. The accumulator holds
`(quality_score, total_weight)`. -/
def aggStep (subscores : Mapping) (acc : ℚ × ℚ) (p : String × ℚ) : ℚ × ℚ :=
  match lookup subscores p.1 with
  | some s => (acc.1 + p.2 * s, acc.2 + p.2)
  | none => acc

/-- The weighted-aggregation algorithm shared by
`AudioProcessor._calculate_quality_score` (audio_processor.py lines 347-377)
and the text service `calculate_overall_quality`
(text_analysis_service.py lines 536-566), with the weight table — hardcoded
inside each source function — abstracted as the `weights` parameter:
loop over `weights.items()`, accumulate `weight * score` and `weight` over
the names present in `subscores`, divide when `total_weight > 0`, fall back
to 0.5 otherwise, and clip with `max(0.0, min(1.0, _))`. -/
def aggregate (subscores weights : Mapping) : ℚ :=
  let acc := weights.foldl (aggStep subscores) ((0 : ℚ), (0 : ℚ))
  let q := if acc.2 > 0 then acc.1 / acc.2 else 1/2
  max 0 (min 1 q)

/-- The weight table hardcoded in `AudioProcessor._calculate_quality_score`
(audio_processor.py lines 351-357). -/
def audioQualityWeights : Mapping :=
  [("volume_quality", 1/4), ("noise_quality", 3/10), ("frequency_quality", 1/5),
   ("silence_quality", 3/20), ("distortion_quality", 1/10)]

/-- `AudioProcessor._calculate_quality_score` (audio_processor.py lines
347-377): the aggregation loop run with the audio weight table. -/
def calculateQualityScore (metrics : Mapping) : ℚ :=
  aggregate metrics audioQualityWeights

/-- The weight table hardcoded in the text service `calculate_overall_quality`
(text_analysis_service.py lines 540-546). -/
def textQualityWeights : Mapping :=
  [("grammar_score", 1/4), ("clarity_score", 1/4), ("relevance_score", 1/5),
   ("completeness_score", 3/20), ("professionalism_score", 3/20)]

/-- Text service `calculate_overall_quality` (text_analysis_service.py lines
536-566): the aggregation loop run with the text weight table. -/
def textCalculateOverallQuality (analysis : Mapping) : ℚ :=
  aggregate analysis textQualityWeights

/-- The weight table hardcoded in the audio service second-order combiner
`calculate_overall_quality` (audio_analysis_service.py lines 537-541). -/
def audioServiceWeights : Mapping :=
  [("audio_quality", 3/10), ("speech_quality", 2/5), ("transcription_confidence", 3/10)]

/-- Audio service `calculate_overall_quality` (audio_analysis_service.py lines
533-557): fetches each first-order score with `.get(key, 0.5)` — substituting
the default 0.5 when the key is absent — then takes the fixed-weight linear
combination `0.3*audio + 0.4*speech + 0.3*confidence` and clips. -/
def audioCalculateOverallQuality (quality_analysis speech_analysis stt_result : Mapping) : ℚ :=
  let audio_quality := (lookup quality_analysis "overall_score").getD (1/2)
  let speech_quality := (lookup speech_analysis "overall_score").getD (1/2)
  let transcription_confidence := (lookup stt_result "confidence").getD (1/2)
  let overall_quality :=
    (3/10) * audio_quality + (2/5) * speech_quality + (3/10) * transcription_confidence
  max 0 (min 1 overall_quality)

/-- The five ordinal quality levels of the spec's level classifier. -/
inductive QualityLevel where
  | Excellent
  | Good
  | Fair
  | Poor
  | VeryPoor
  deriving DecidableEq, Repr

/-- The if-chain of `AudioProcessor._get_quality_level` (audio_processor.py
lines 379-390) and text `get_quality_level` (text_analysis_service.py lines
568-579), valued in the abstract level enumeration. -/
def classify (score : ℚ) : QualityLevel :=
  if score ≥ 9/10 then .Excellent
  else if score ≥ 4/5 then .Good
  else if score ≥ 3/5 then .Fair
  else if score ≥ 2/5 then .Poor
  else .VeryPoor

/-- `AudioProcessor._get_quality_level` / text `get_quality_level`: the
label string actually returned by the source, including the two-word
lowest label "Very Poor". -/
def getQualityLevel (score : ℚ) : String :=
  if score ≥ 9/10 then "Excellent"
  else if score ≥ 4/5 then "Good"
  else if score ≥ 3/5 then "Fair"
  else if score ≥ 2/5 then "Poor"
  else "Very Poor"

/-- The threshold gate `passed = score >= threshold` used at
audio_analysis_service.py line 219, face_analysis_service.py line 263 and
text_analysis_service.py line 174. -/
def passes (score threshold : ℚ) : Bool :=
  decide (score ≥ threshold)

/-- `CONFIG['QUALITY_THRESHOLD']` of the audio service
(audio_analysis_service.py line 39). -/
def audioQualityThreshold : ℚ := 7/10

/-- `CONFIG['CONFIDENCE_THRESHOLD']` of the facial service
(face_analysis_service.py line 41). -/
def facialConfidenceThreshold : ℚ := 4/5

/-- `CONFIG['QUALITY_THRESHOLD']` of the text service
(text_analysis_service.py line 33). -/
def textQualityThreshold : ℚ := 4/5

/-- Error-path return of `AudioProcessor._analyze_volume`
(audio_processor.py line 151). -/
def analyzeVolumeErrorReturn : Mapping := [("volume_quality", 1/2)]

/-- Error-path return of `AudioProcessor._analyze_noise`
(audio_processor.py line 193). -/
def analyzeNoiseErrorReturn : Mapping := [("noise_quality", 1/2)]

/-- Error-path return of `AudioProcessor._analyze_frequency_spectrum`
(audio_processor.py line 253). -/
def analyzeFrequencyErrorReturn : Mapping := [("frequency_quality", 1/2)]

/-- Error-path return of `AudioProcessor._analyze_silence`
(audio_processor.py line 298). -/
def analyzeSilenceErrorReturn : Mapping := [("silence_quality", 1/2)]

/-- Error-path return of `AudioProcessor._analyze_distortion`
(audio_processor.py line 345). -/
def analyzeDistortionErrorReturn : Mapping := [("distortion_quality", 1/2)]

/-- Error-path return of `ConfidenceAnalyzer.analyze_confidence`
(confidence_analyzer.py lines 332 and 366): on failed feature extraction
or any exception it returns 0.0. -/
def analyzeConfidenceErrorReturn : ℚ := 0

/-- The label string the source attaches to each abstract level. -/
def levelLabel : QualityLevel → String
  | .Excellent => "Excellent"
  | .Good => "Good"
  | .Fair => "Fair"
  | .Poor => "Poor"
  | .VeryPoor => "Very Poor"

/-- The metrics mapping of the end-to-end audio scenario. -/
def scenarioMetrics : Mapping :=
  [("volume_quality", 9/10), ("noise_quality", 2/5), ("frequency_quality", 7/10),
   ("silence_quality", 1), ("distortion_quality", 4/5)]

/-- The entries of the weight table whose names are present in the
subscores mapping: the names iterated over by the aggregation loop that
contribute to both running sums. -/
def commonEntries (subscores weights : Mapping) : Mapping :=
  weights.filter (fun p => (lookup subscores p.1).isSome)

/-- The score a present name contributes (`metrics[metric]`). -/
def scoreOf (subscores : Mapping) (name : String) : ℚ :=
  (lookup subscores name).getD 0

/-- Spec-side weighted sum: the sum over every name present in both
mappings of `weight * score`. -/
def specWeightedSum (subscores weights : Mapping) : ℚ :=
  ((commonEntries subscores weights).map (fun p => p.2 * scoreOf subscores p.1)).sum

/-- Spec-side weight total: the sum of the weights of the names present in
both mappings. -/
def specWeightTotal (subscores weights : Mapping) : ℚ :=
  ((commonEntries subscores weights).map Prod.snd).sum

/-- The aggregation algorithm as the spec words it: weighted sum over the
common names divided by their weight total when positive, the neutral
fallback 0.5 otherwise, clipped to [0, 1]. -/
def aggregateSpec (subscores weights : Mapping) : ℚ :=
  let t := specWeightTotal subscores weights
  let q := if t > 0 then specWeightedSum subscores weights / t else 1/2
  max 0 (min 1 q)

lemma getQualityLevel_eq_label (s : ℚ) : getQualityLevel s = levelLabel (classify s) := by
  unfold getQualityLevel classify levelLabel
  split_ifs <;> rfl

lemma foldl_aggStep (subscores : Mapping) (weights : Mapping) (a b : ℚ) :
    weights.foldl (aggStep subscores) (a, b) =
      (a + specWeightedSum subscores weights, b + specWeightTotal subscores weights) := by
  induction weights generalizing a b with
  | nil => simp [specWeightedSum, specWeightTotal, commonEntries]
  | cons p t ih =>
    simp only [List.foldl_cons]
    rcases hl : lookup subscores p.1 with _ | v
    · have hstep : aggStep subscores (a, b) p = (a, b) := by
        simp [aggStep, hl]
      rw [hstep, ih]
      simp [specWeightedSum, specWeightTotal, commonEntries, List.filter_cons, hl]
    · have hstep : aggStep subscores (a, b) p = (a + p.2 * v, b + p.2) := by
        simp [aggStep, hl]
      rw [hstep, ih]
      simp only [specWeightedSum, specWeightTotal, commonEntries, List.filter_cons, hl,
        Option.isSome_some, if_true, List.map_cons, List.sum_cons, scoreOf,
        Option.getD_some, Prod.mk.injEq]
      constructor <;> ring

/-- C1: for every subscores mapping and weights mapping, the aggregation
loop computes exactly the spec's formula — the sum over every name present
in both mappings of `weight * score`, divided by the sum of those weights
when that sum is strictly positive, and 0.5 otherwise, the result clipped
to [0, 1]; names absent from the weight table contribute nothing. -/
theorem aggregate_eq_spec (subscores weights : Mapping) :
    aggregate subscores weights = aggregateSpec subscores weights := by
  unfold aggregate aggregateSpec
  rw [foldl_aggStep]
  simp

/-- C4: aggregate applied to an empty subscores mapping returns exactly the
neutral fallback 0.5, for every weights mapping. -/
theorem aggregate_empty (weights : Mapping) : aggregate [] weights = 1/2 := by
  rw [aggregate_eq_spec]
  have hc : commonEntries [] weights = [] := by
    simp [commonEntries, lookup]
  unfold aggregateSpec
  rw [specWeightTotal, specWeightedSum, hc]
  norm_num

/-- C5: for every non-empty subscores mapping with values in [0, 1] and
every weights mapping with non-negative weights, the aggregate lies in
[0, 1]. -/
theorem aggregate_range (subscores weights : Mapping)
    (_hne : subscores ≠ [])
    (_hs : ∀ p ∈ subscores, 0 ≤ p.2 ∧ p.2 ≤ 1)
    (_hw : ∀ p ∈ weights, 0 ≤ p.2) :
    0 ≤ aggregate subscores weights ∧ aggregate subscores weights ≤ 1 := by
  unfold aggregate
  exact ⟨le_max_left _ _, max_le zero_le_one (min_le_left _ _)⟩

/-- Witness for C5 at a concrete input. -/
theorem aggregate_range_witness :
    (([("a", 1/2)] : Mapping) ≠ [] ∧ (0:ℚ) ≤ 1/2 ∧ (1:ℚ)/2 ≤ 1 ∧ (0:ℚ) ≤ 1) ∧
      0 ≤ aggregate [("a", 1/2)] [("a", 1)] ∧ aggregate [("a", 1/2)] [("a", 1)] ≤ 1 :=
  ⟨by norm_num,
   aggregate_range [("a", 1/2)] [("a", 1)] (by simp)
     (by intro p hp; simp at hp; rw [hp]; norm_num)
     (by intro p hp; simp at hp; rw [hp]; norm_num)⟩

/-- C2: the level bands are exactly score ≥ 0.9 → Excellent,
0.8 ≤ score < 0.9 → Good, 0.6 ≤ score < 0.8 → Fair,
0.4 ≤ score < 0.6 → Poor, score < 0.4 → VeryPoor; every boundary is closed
on its lower bound, so classify 0.8 = Good and classify 0.7999 = Fair. -/
theorem classify_bands (s : ℚ) :
    (classify s = .Excellent ↔ 9/10 ≤ s) ∧
    (classify s = .Good ↔ 4/5 ≤ s ∧ s < 9/10) ∧
    (classify s = .Fair ↔ 3/5 ≤ s ∧ s < 4/5) ∧
    (classify s = .Poor ↔ 2/5 ≤ s ∧ s < 3/5) ∧
    (classify s = .VeryPoor ↔ s < 2/5) ∧
    classify (4/5) = .Good ∧ classify (7999/10000) = .Fair := by
  refine ⟨?_, ?_, ?_, ?_, ?_, by norm_num [classify], by norm_num [classify]⟩ <;>
    · unfold classify
      split_ifs <;> simp_all <;> intros <;> linarith

/-- C3: the verdict is `score >= threshold` with equality passing, and the
per-service threshold constants are 0.7 for the audio service and 0.8 for
the facial and text services. -/
theorem passes_spec :
    (∀ s t : ℚ, passes s t = true ↔ t ≤ s) ∧
    (∀ t : ℚ, passes t t = true) ∧
    audioQualityThreshold = 7/10 ∧
    facialConfidenceThreshold = 4/5 ∧
    textQualityThreshold = 4/5 := by
  refine ⟨?_, ?_, rfl, rfl, rfl⟩ <;> simp [passes]

lemma scenario_eval : calculateQualityScore scenarioMetrics = 143/200 := by
  have h1 : lookup scenarioMetrics "volume_quality" = some (9/10) := rfl
  have h2 : lookup scenarioMetrics "noise_quality" = some (2/5) := rfl
  have h3 : lookup scenarioMetrics "frequency_quality" = some (7/10) := rfl
  have h4 : lookup scenarioMetrics "silence_quality" = some 1 := rfl
  have h5 : lookup scenarioMetrics "distortion_quality" = some (4/5) := rfl
  simp only [calculateQualityScore, aggregate, audioQualityWeights, List.foldl_cons,
    List.foldl_nil, aggStep, h1, h2, h3, h4, h5]
  norm_num [min_def, max_def]

/-- C6 counterexample: on the scenario input the aggregate overall score is
exactly 0.715, not approximately 0.705 — refuting the claimed ≈ 0.705. -/
theorem scenario_score_not_705 :
    calculateQualityScore scenarioMetrics = 143/200 ∧
      ¬ ((141/200 : ℚ) - 1/200 ≤ calculateQualityScore scenarioMetrics ∧
         calculateQualityScore scenarioMetrics ≤ (141/200 : ℚ) + 1/200) := by
  refine ⟨scenario_eval, ?_⟩
  rw [scenario_eval]
  norm_num

/-- C6 amended: on the scenario input the overall score is exactly 0.715,
the quality level is Fair, and with pass threshold 0.7 the verdict is
true. -/
theorem scenario_results :
    calculateQualityScore scenarioMetrics = 143/200 ∧
    classify (calculateQualityScore scenarioMetrics) = .Fair ∧
    getQualityLevel (calculateQualityScore scenarioMetrics) = "Fair" ∧
    passes (calculateQualityScore scenarioMetrics) audioQualityThreshold = true := by
  refine ⟨scenario_eval, ?_, ?_, ?_⟩ <;> rw [scenario_eval]
  · norm_num [classify]
  · norm_num [getQualityLevel]
  · norm_num [passes, audioQualityThreshold]

/-- C9 counterexample: the label emitted for the lowest band is the
two-word string "Very Poor", not the single token "VeryPoor". -/
theorem lowest_label_has_space :
    getQualityLevel (3/10) = "Very Poor" ∧ getQualityLevel (3/10) ≠ "VeryPoor" := by
  have h : getQualityLevel (3/10) = "Very Poor" := by norm_num [getQualityLevel]
  exact ⟨h, by rw [h]; decide⟩

/-- C9 amended: for every aggregate score the emitted quality level is
exactly one of the five labels Excellent, Good, Fair, Poor, Very Poor —
the lowest band being the two-word label "Very Poor". -/
theorem quality_level_labels (s : ℚ) :
    getQualityLevel s = "Excellent" ∨ getQualityLevel s = "Good" ∨
    getQualityLevel s = "Fair" ∨ getQualityLevel s = "Poor" ∨
    getQualityLevel s = "Very Poor" := by
  unfold getQualityLevel
  split_ifs <;> simp

/-- C10: the audio aggregate score depends only on the entries named in the
weight table — two metrics mappings agreeing on the five weighted names
(volume_quality, noise_quality, frequency_quality, silence_quality,
distortion_quality) yield the same score however they differ on other
diagnostic entries. -/
theorem quality_score_noninterference (m1 m2 : Mapping)
    (h1 : lookup m1 "volume_quality" = lookup m2 "volume_quality")
    (h2 : lookup m1 "noise_quality" = lookup m2 "noise_quality")
    (h3 : lookup m1 "frequency_quality" = lookup m2 "frequency_quality")
    (h4 : lookup m1 "silence_quality" = lookup m2 "silence_quality")
    (h5 : lookup m1 "distortion_quality" = lookup m2 "distortion_quality") :
    calculateQualityScore m1 = calculateQualityScore m2 := by
  unfold calculateQualityScore aggregate audioQualityWeights
  simp only [List.foldl_cons, List.foldl_nil, aggStep, h1, h2, h3, h4, h5]

/-- Witness for C10: two mappings agreeing on the weighted names but
differing on diagnostic entries (rms_db, snr_db, is_noisy) score equally. -/
theorem quality_score_noninterference_witness :
    (lookup [("volume_quality", 9/10), ("rms_db", -20)] "volume_quality" =
      lookup [("is_noisy", 1), ("volume_quality", 9/10), ("snr_db", 3)] "volume_quality") ∧
    calculateQualityScore [("volume_quality", 9/10), ("rms_db", -20)] =
      calculateQualityScore [("is_noisy", 1), ("volume_quality", 9/10), ("snr_db", 3)] :=
  ⟨by simp [lookup],
   quality_score_noninterference _ _ (by simp [lookup]) (by simp [lookup]) (by simp [lookup])
     (by simp [lookup]) (by simp [lookup])⟩

/-- C7 counterexample: the audio service second-order combiner does not
renormalize over the weights of the sub-scores actually present — with the
audio-quality report missing its overall_score and the other two scores
equal to 1, the combiner substitutes the default 0.5 and yields 0.85,
while the renormalizing aggregate over the two present sub-scores yields
1. -/
theorem audio_combiner_not_renormalizing :
    audioCalculateOverallQuality [] [("overall_score", 1)] [("confidence", 1)] = 17/20 ∧
    aggregate [("speech_quality", 1), ("transcription_confidence", 1)] audioServiceWeights = 1 ∧
    (17/20 : ℚ) ≠ 1 := by
  refine ⟨?_, ?_, by norm_num⟩
  · have h1 : lookup ([] : Mapping) "overall_score" = none := rfl
    have h2 : lookup [(("overall_score" : String), (1 : ℚ))] "overall_score" = some 1 := rfl
    have h3 : lookup [(("confidence" : String), (1 : ℚ))] "confidence" = some 1 := rfl
    simp only [audioCalculateOverallQuality, h1, h2, h3, Option.getD_some, Option.getD_none]
    norm_num [min_def, max_def]
  · have h1 : lookup [(("speech_quality" : String), (1 : ℚ)),
        ("transcription_confidence", 1)] "audio_quality" = none := rfl
    have h2 : lookup [(("speech_quality" : String), (1 : ℚ)),
        ("transcription_confidence", 1)] "speech_quality" = some 1 := rfl
    have h3 : lookup [(("speech_quality" : String), (1 : ℚ)),
        ("transcription_confidence", 1)] "transcription_confidence" = some 1 := rfl
    simp only [aggregate, audioServiceWeights, List.foldl_cons, List.foldl_nil, aggStep,
      h1, h2, h3]
    norm_num [min_def, max_def]

/-- C7 amended: the text service combiner computes exactly the shared
weighted-aggregation algorithm, renormalizing over the weights present;
the audio service combiner agrees with the shared algorithm whenever all
three first-order sub-scores are present (its fixed weights sum to 1), but
on a missing sub-score it substitutes the default 0.5 instead of
renormalizing. -/
theorem combiner_refines_aggregate :
    (∀ analysis : Mapping, textCalculateOverallQuality analysis =
      aggregate analysis textQualityWeights) ∧
    (∀ (qa sa st : Mapping) (a s c : ℚ),
      lookup qa "overall_score" = some a →
      lookup sa "overall_score" = some s →
      lookup st "confidence" = some c →
      audioCalculateOverallQuality qa sa st =
        aggregate [("audio_quality", a), ("speech_quality", s), ("transcription_confidence", c)]
          audioServiceWeights) := by
  refine ⟨fun _ => rfl, ?_⟩
  intro qa sa st a s c ha hs hc
  have h1 : lookup [(("audio_quality" : String), a), ("speech_quality", s),
      ("transcription_confidence", c)] "audio_quality" = some a := rfl
  have h2 : lookup [(("audio_quality" : String), a), ("speech_quality", s),
      ("transcription_confidence", c)] "speech_quality" = some s := by
    simp [lookup]
  have h3 : lookup [(("audio_quality" : String), a), ("speech_quality", s),
      ("transcription_confidence", c)] "transcription_confidence" = some c := by
    simp [lookup]
  simp only [audioCalculateOverallQuality, ha, hs, hc, Option.getD_some,
    aggregate, audioServiceWeights, List.foldl_cons, List.foldl_nil, aggStep, h1, h2, h3]
  norm_num

/-- Witness for C7 at concrete inputs: all three sub-scores present. -/
theorem combiner_refines_aggregate_witness :
    (textCalculateOverallQuality [("grammar_score", 1)] =
      aggregate [("grammar_score", 1)] textQualityWeights) ∧
    (lookup [("overall_score", 9/10)] "overall_score" = some (9/10) ∧
     lookup [("overall_score", 4/5)] "overall_score" = some (4/5) ∧
     lookup [("confidence", 7/10)] "confidence" = some (7/10)) ∧
    audioCalculateOverallQuality [("overall_score", 9/10)] [("overall_score", 4/5)]
        [("confidence", 7/10)] =
      aggregate [("audio_quality", 9/10), ("speech_quality", 4/5),
        ("transcription_confidence", 7/10)] audioServiceWeights :=
  ⟨combiner_refines_aggregate.1 [("grammar_score", 1)], ⟨rfl, rfl, rfl⟩,
   combiner_refines_aggregate.2 _ _ _ _ _ _ rfl rfl rfl⟩

/-- C8 counterexample: the facial confidence analyzer's error path returns
0.0, not the neutral default 0.5 claimed for every per-dimension
analyzer. -/
theorem confidence_error_not_half :
    analyzeConfidenceErrorReturn = 0 ∧ analyzeConfidenceErrorReturn ≠ 1/2 := by
  refine ⟨rfl, ?_⟩
  rw [analyzeConfidenceErrorReturn]
  norm_num

/-- C8 amended: on their error paths the five audio per-dimension analyzers
each return the neutral default 0.5 for the single dimension they own,
while the facial confidence analyzer returns 0.0; in each case a value is
returned rather than an exception propagated. -/
theorem analyzer_error_defaults :
    lookup analyzeVolumeErrorReturn "volume_quality" = some (1/2) ∧
    lookup analyzeNoiseErrorReturn "noise_quality" = some (1/2) ∧
    lookup analyzeFrequencyErrorReturn "frequency_quality" = some (1/2) ∧
    lookup analyzeSilenceErrorReturn "silence_quality" = some (1/2) ∧
    lookup analyzeDistortionErrorReturn "distortion_quality" = some (1/2) ∧
    analyzeConfidenceErrorReturn = 0 :=
  ⟨rfl, rfl, rfl, rfl, rfl, rfl⟩

end InterviewX
